import Mathlib

/-!
Verification of the Adaptive Hybrid Download Controller of the
telegram-manager repository, against its natural-language specification.

The embedding follows src/tgm_final_v2.6_aria2_hybrid.py (the unified
controller the spec describes), with the older variants
src/tgm_final_v2.py and src/tgm_final_v2.5_universal.py modelled where a
claim cites them.  Python ints are modelled as Int (sizes that are known
nonnegative as Nat), Python floats as Rat, fallible reads as explicit
outcome types.  The v2.6 source file on record is truncated inside
DownloadController._download_one (it breaks off mid-statement at the
checkpoint-credit line and then repeats itself); definitions that have to
fill the lost lines from the specification say so in their doc comment.
-/

namespace Tgm

/-- A transfer profile as produced by compute_profile
(src/tgm_final_v2.6_aria2_hybrid.py, lines 358-372): chunk size in bytes,
worker concurrency and the fast-mode flag.  The refresh_interval entry of
the returned dict is copied verbatim from the global config and carries no
logic, so it is omitted here. -/
structure Profile where
  chunk_size : Nat
  concurrency : Nat
  fast_mode : Bool
deriving Repr, DecidableEq

/-- compute_profile from src/tgm_final_v2.6_aria2_hybrid.py lines 358-372
(identical logic to compute_runtime_profile in
src/tgm_final_v2.5_universal.py lines 418-432).  bps is Optional[float],
modelled as Option Rat.  Python's `if bps:` is false both for None and for
the float 0.0, so a measured speed of exactly zero takes the same path as
an unknown speed; the `if b = 0` test below reproduces that truthiness
check.  mbps = bps / 1e6 is exact rational division here. -/
def compute_profile (bps : Option Rat) (battery_ok : Bool) : Profile :=
  let base : Profile :=
    match bps with
    | none => ⟨256000, 1, false⟩
    | some b =>
      if b = 0 then ⟨256000, 1, false⟩
      else
        let mbps := b / 1000000
        if mbps ≥ 10 then ⟨1000000, 4, true⟩
        else if mbps ≥ 2 then ⟨512000, 2, true⟩
        else if mbps ≥ 1/2 then ⟨256000, 1, false⟩
        else ⟨128000, 1, false⟩
  if battery_ok then base
  else ⟨max 64000 (base.chunk_size / 2), 1, base.fast_mode⟩

/-- One checkpoint entry: the per-item progress record
written as a JSON object with keys done and total
(src/tgm_final_v2.6_aria2_hybrid.py line 445). -/
structure Entry where
  done : Int
  total : Int
deriving Repr, DecidableEq

/-- The in-memory checkpoint mapping self.state.  The Python code is a
dict of dicts keyed by str(chat_id) then str(msg_id); since str is
injective on ints this is flattened here to an association list keyed by
the (chat_id, msg_id) pair. -/
abbrev StateMap := List ((Nat × Nat) × Entry)

/-- Lookup of one item's entry, the read
self.state.get(str(chat_id), ...).get(str(msg_id), ...). -/
def getEntry : StateMap → Nat → Nat → Option Entry
  | [], _, _ => none
  | p :: rest, c, g => if p.1 = (c, g) then some p.2 else getEntry rest c g

/-- The previously checkpointed done bytes of one item, defaulting to 0:
self.state.get(str(chat_id), \x7b\x7d).get(str(msg_id), \x7b\x7d).get("done", 0)
at src/tgm_final_v2.6_aria2_hybrid.py line 442. -/
def getDone (m : StateMap) (c g : Nat) : Int :=
  match getEntry m c g with
  | some e => e.done
  | none => 0

/-- Dict update self.state.setdefault(str(chat_id), \x7b\x7d)[str(msg_id)] = e. -/
def setEntry (m : StateMap) (c g : Nat) (e : Entry) : StateMap :=
  ((c, g), e) :: m.filter (fun p => decide (p.1 ≠ (c, g)))

/-- The mutable controller state shared by all workers: the aggregate
downloaded-bytes counter self.downloaded and the checkpoint mapping
self.state (DownloadController.__init__,
src/tgm_final_v2.6_aria2_hybrid.py lines 413-421). -/
structure Ctrl where
  downloaded : Int
  state : StateMap
deriving Repr, DecidableEq

/-- Python `total or assumed_size` followed by int(...): the
transport-reported total when it is neither None nor zero, otherwise the
assumed size (src/tgm_final_v2.6_aria2_hybrid.py line 445). -/
def pyOrTotal (total : Option Int) (assumed : Int) : Int :=
  match total with
  | none => assumed
  | some t => if t = 0 then assumed else t

/-- One invocation of the progress callback _cb inside
DownloadController._telethon_download
(src/tgm_final_v2.6_aria2_hybrid.py lines 440-446): under the lock it
reads the previously checkpointed done bytes, adds
max(0, received - prev) to the aggregate counter, and overwrites the
item's entry with done = received and total = (total or assumed_size).
The pause-wait loop after the lock release affects timing only and is not
modelled. -/
def telethonCb (s : Ctrl) (c g : Nat) (received : Int)
    (total : Option Int) (assumed : Int) : Ctrl :=
  let prev := getDone s.state c g
  let add := max 0 (received - prev)
  { downloaded := s.downloaded + add
    state := setEntry s.state c g ⟨received, pyOrTotal total assumed⟩ }

/-- DownloadController._aria2_hand_off
(src/tgm_final_v2.6_aria2_hybrid.py lines 470-478): returns False when
aria2 is unavailable or disabled; otherwise spawns the external aria2c
process detached via subprocess.Popen and returns True immediately if the
spawn did not raise.  spawnOk models whether Popen raises;
transferCompletes models whether the detached process eventually finishes
its transfer successfully — the code never consults it, which the
definition makes explicit by ignoring the parameter. -/
def aria2_hand_off (ariaEnabled spawnOk transferCompletes : Bool) : Bool :=
  if ariaEnabled = false then false else spawnOk

/-- The credit block inside DownloadController._download_one that runs
when _aria2_hand_off returned True
(src/tgm_final_v2.6_aria2_hybrid.py lines 491-494): under the lock the
full declared item size is added to the aggregate counter and the item's
checkpoint entry is set to done = size.  The total field of that entry is
cut off mid-token in the truncated source ("total": int(siz); the only
in-scope name with that prefix is size, so total = size. -/
def handoffCredit (s : Ctrl) (c g : Nat) (size : Int) : Ctrl :=
  { downloaded := s.downloaded + size
    state := setEntry s.state c g ⟨size, size⟩ }

/-- The handoff arm of _download_one after dispatch: call _aria2_hand_off
and, exactly when it returned True, apply the spawn-time credit. -/
def handoffDispatchStep (s : Ctrl) (c g : Nat) (size : Int)
    (ariaEnabled spawnOk transferCompletes : Bool) : Ctrl :=
  if aria2_hand_off ariaEnabled spawnOk transferCompletes then
    handoffCredit s c g size
  else s

/-- The two download engines an item can be dispatched to. -/
inductive Engine
  | handoff
  | stream
deriving Repr, DecidableEq

/-- Python truthiness of item.get("direct_url"): None and the empty
string are falsy, any other string is truthy. -/
def truthyUrl : Option String → Bool
  | none => false
  | some u => decide (u ≠ "")

/-- The per-item dispatch decision of DownloadController._download_one
(src/tgm_final_v2.6_aria2_hybrid.py lines 480-494): the source shows
`if size >= ARIA_MIN_BYTES and ARIA_ENABLED:` and, nested inside it,
`if direct_url:` leading to the aria2 handoff.  The file is truncated
right after the handoff credit, so both fall-through arms are lost.
Modelled from the spec: the non-handoff arms of _download_one, which per
the dispatch policy of section 4.6 ("else → Stream Engine") send the item
to the in-process Stream Engine. -/
def dispatch (size threshold : Int) (ariaEnabled : Bool)
    (directUrl : Option String) : Engine :=
  if size ≥ threshold ∧ ariaEnabled = true then
    if truthyUrl directUrl then Engine.handoff else Engine.stream
  else Engine.stream

/-- Outcome of trying to read the checkpoint file at startup:
the file may be missing, the read itself may raise, or the read may
deliver contents on which json.loads either fails (content none) or
yields a mapping (content (some m)). -/
inductive ReadOutcome
  | missing
  | readError
  | content (parsed : Option StateMap)

/-- load_state from src/tgm_final_v2.6_aria2_hybrid.py lines 386-392:
if the file does not exist the empty mapping is returned; otherwise the
read and the json.loads parse run inside a try whose except clause
returns the empty mapping.  Totality of this function is the formal
counterpart of "never raises to the caller". -/
def load_state : ReadOutcome → StateMap
  | ReadOutcome.missing => []
  | ReadOutcome.readError => []
  | ReadOutcome.content none => []
  | ReadOutcome.content (some m) => m

/-- An abstract file-system operation, used to describe what save_state
does to disk. -/
inductive FsOp
  | writeFile (path : String) (contents : String)
  | rename (src dst : String)
deriving Repr, DecidableEq

/-- The checkpoint store file DOWNLOAD_STATE
(ManagerData/download_state.json). -/
def DOWNLOAD_STATE : String := "download_state.json"

/-- save_state from src/tgm_final_v2.6_aria2_hybrid.py lines 394-398
(same single statement in tgm_final_v2.py line 394 and
tgm_final_v2.5_universal.py lines 455-459): one direct
DOWNLOAD_STATE.write_text(json.dumps(s)) call on the store file itself,
inside a try/except that swallows failure.  The json.dumps serialisation
is abstracted as the contents string.  No temporary file is written and
no rename is performed. -/
def save_state_ops (contents : String) : List FsOp :=
  [FsOp.writeFile DOWNLOAD_STATE contents]

/-- Write-temp-then-replace semantics as the spec words it: the mapping
is first written to a temporary file (a path other than the store file)
and that file is then renamed over the store file. -/
def usesWriteTempThenReplace (ops : List FsOp) (store : String) : Prop :=
  ∃ tmp, tmp ≠ store ∧ (∃ c, FsOp.writeFile tmp c ∈ ops) ∧
    FsOp.rename tmp store ∈ ops

/-- One controller event that mutates the shared state under the lock:
either a Stream Engine progress callback or a Handoff Engine spawn-time
credit.  Durable writes of the store (save_state via _save_progress)
happen at throttle-determined moments right after such mutations, so the
state visible at any durable write is the state after some prefix of
events. -/
inductive Ev
  | cb (c g : Nat) (received : Int) (total : Option Int) (assumed : Int)
  | credit (c g : Nat) (size : Int)

/-- Apply one event to the controller state. -/
def stepEv (s : Ctrl) : Ev → Ctrl
  | Ev.cb c g r t a => telethonCb s c g r t a
  | Ev.credit c g size => handoffCredit s c g size

/-- Run a sequence of events. -/
def runEvs (s : Ctrl) (evs : List Ev) : Ctrl := evs.foldl stepEv s

/-- The checkpoint invariant of spec section 3: every stored entry has
0 ≤ bytesDone ≤ bytesTotal. -/
def stateInv (m : StateMap) : Prop :=
  ∀ p ∈ m, 0 ≤ p.2.done ∧ p.2.done ≤ p.2.total

/-- Wellformedness of an event with respect to the transport: a progress
callback reports a nonnegative cumulative count that does not exceed the
effective total, a handoff credit carries a nonnegative size. -/
def evOk : Ev → Prop
  | Ev.cb _ _ r t a => 0 ≤ r ∧ r ≤ pyOrTotal t a
  | Ev.credit _ _ size => 0 ≤ size

/-- Result of one run of DownloadController._simulated: the returned
boolean, the bytes credited to the aggregate counter during the loop, the
size of the output file afterwards (none when it was never created), and
whether the cancel flag was set when last checked. -/
structure SimResult where
  retval : Bool
  doneBytes : Nat
  fileSize : Option Nat
  cancelled : Bool
deriving Repr, DecidableEq

/-- The while loop of DownloadController._simulated
(src/tgm_final_v2.6_aria2_hybrid.py lines 457-463): at iteration index i
it checks done < size and the cancel flag (set from index cancelStep on,
never when cancelStep is none), then advances done by
min(chunk_size, size - done).  Returns the final done count and the flag
value at the exit check; none models the Python loop never terminating
(possible when chunk_size = 0), since the fuel given below is sufficient
for every terminating run. -/
def simLoop (size chunk : Nat) (cancelStep : Option Nat) :
    Nat → Nat → Nat → Option (Nat × Bool)
  | 0, _, _ => none
  | fuel + 1, i, done =>
    let flag : Bool := match cancelStep with
      | some k => decide (k ≤ i)
      | none => false
    if done < size ∧ flag = false then
      simLoop size chunk cancelStep fuel (i + 1) (done + min chunk (size - done))
    else some (done, flag)

/-- DownloadController._simulated
(src/tgm_final_v2.6_aria2_hybrid.py lines 455-468).  existing is the
pre-existing output file size (none when the file does not exist).  If
the file already has at least the declared size the function returns True
untouched.  Otherwise it runs the chunk loop, then unconditionally — also
after a cancel — opens the output file in "wb" mode (truncating any
partial content) and extends it to the full declared size; openOk models
whether that open raises (the except clause swallows it and leaves the
file as it was).  Finally it returns the negation of the cancel flag.
The pause wait inside the loop affects timing only and is not modelled. -/
def simulated (existing : Option Nat) (size chunk : Nat)
    (cancelStep : Option Nat) (openOk : Bool) : Option SimResult :=
  match existing with
  | some n =>
    if n ≥ size then some ⟨true, 0, some n, false⟩
    else
      (simLoop size chunk cancelStep (size + 1) 0 0).map
        (fun pr => ⟨!pr.2, pr.1, if openOk then some size else some n, pr.2⟩)
  | none =>
    (simLoop size chunk cancelStep (size + 1) 0 0).map
      (fun pr => ⟨!pr.2, pr.1, if openOk then some size else none, pr.2⟩)

/-- The progress callback _cb inside download_with_telethon of the older
variant src/tgm_final_v2.py (lines 486-497): it adds the raw callback
value curr to the aggregate downloaded counter and stores that aggregate
as the item's done bytes, against its own comment announcing "adding curr
delta".  Returns the new aggregate and the stored entry. -/
def download_with_telethon_cb (downloaded : Int) (totalBytes : Int)
    (curr : Int) : Int × Entry :=
  (downloaded + curr, ⟨downloaded + curr, totalBytes⟩)

end Tgm

namespace Tgm

theorem getEntry_setEntry (m : StateMap) (c g : Nat) (e : Entry) :
    getEntry (setEntry m c g e) c g = some e := by
  simp [getEntry, setEntry]

theorem compute_profile_battery (bps : Option Rat) :
    (compute_profile bps false).concurrency = 1 := rfl

theorem compute_profile_cases (bps : Option Rat) (ok : Bool) :
    compute_profile bps ok = ⟨256000, 1, false⟩
    ∨ compute_profile bps ok = ⟨1000000, 4, true⟩
    ∨ compute_profile bps ok = ⟨512000, 2, true⟩
    ∨ compute_profile bps ok = ⟨128000, 1, false⟩
    ∨ compute_profile bps ok = ⟨500000, 1, true⟩
    ∨ compute_profile bps ok = ⟨256000, 1, true⟩
    ∨ compute_profile bps ok = ⟨64000, 1, false⟩ := by
  rcases bps with _ | b <;> cases ok <;>
    simp only [compute_profile] <;> split_ifs <;> simp_all

theorem mem_setEntry {m : StateMap} {c g : Nat} {e : Entry}
    {p : (Nat × Nat) × Entry} (hp : p ∈ setEntry m c g e) :
    p.2 = e ∨ p ∈ m := by
  unfold setEntry at hp
  rcases List.mem_cons.mp hp with h | h
  · left; rw [h]
  · right; exact List.mem_of_mem_filter h

theorem stepEv_preserves_inv {s : Ctrl} {e : Ev}
    (hs : stateInv s.state) (he : evOk e) : stateInv (stepEv s e).state := by
  cases e with
  | cb c g r t a =>
    intro p hp
    simp only [stepEv, telethonCb] at hp
    rcases mem_setEntry hp with h | h
    · rw [h]; exact he
    · exact hs p h
  | credit c g size =>
    intro p hp
    simp only [stepEv, handoffCredit] at hp
    rcases mem_setEntry hp with h | h
    · rw [h]; exact ⟨he, le_refl _⟩
    · exact hs p h

/-- Claim C1: an item goes to the Handoff Engine exactly when its size
reaches the threshold (inclusive), aria2 handoff is available and
enabled, and a direct URL is present (a URL being present in the Python
truthiness sense, i.e. the field is set and nonempty); in every other
case the two-constructor Engine type forces the Stream Engine. -/
theorem c1_dispatch_policy (size threshold : Int) (ariaEnabled : Bool)
    (directUrl : Option String) :
    dispatch size threshold ariaEnabled directUrl = Engine.handoff ↔
      (size ≥ threshold ∧ ariaEnabled = true ∧ truthyUrl directUrl = true) := by
  unfold dispatch
  split_ifs with h1 h2 <;> simp_all

/-- Claim C1 witness: the boundary item with size equal to the threshold,
handoff enabled and a direct URL present is dispatched to the Handoff
Engine. -/
theorem c1_witness :
    dispatch 100 100 true (some "u") = Engine.handoff :=
  (c1_dispatch_policy 100 100 true (some "u")).mpr
    ⟨le_refl _, rfl, by decide⟩

/-- Claim C2: the Handoff Engine returns true exactly on a successful
spawn, independently of whether the detached transfer ever completes,
and upon that success the Controller adds the item's full declared size
to the aggregate counter and records a checkpoint entry with bytesDone
equal to the full size. -/
theorem c2_handoff_spawn_credit (s : Ctrl) (c g : Nat) (size : Int)
    (spawnOk t t' : Bool) :
    aria2_hand_off true spawnOk t = spawnOk
    ∧ aria2_hand_off true spawnOk t = aria2_hand_off true spawnOk t'
    ∧ (handoffDispatchStep s c g size true true t).downloaded
        = s.downloaded + size
    ∧ getEntry (handoffDispatchStep s c g size true true t).state c g
        = some ⟨size, size⟩ := by
  refine ⟨rfl, rfl, rfl, ?_⟩
  exact getEntry_setEntry s.state c g ⟨size, size⟩

/-- Claim C3: evaluation at the failing input.  Two successive callbacks
for one item report cumulative counts 50 then 100.  After the first, the
aggregate is 50 and the stored done is 50.  The v2.py callback
(download_with_telethon._cb) then adds the raw cumulative 100, yielding
aggregate 150, even though only 100 bytes exist; the v2.6 controller
callback at the same point adds the delta max(0, 100 - 50) and yields the
correct aggregate 100.  The v2.py code thereby contradicts its own inline
comment announcing that it adds the delta. -/
theorem c3_raw_cumulative_added :
    (download_with_telethon_cb 50 200 100).1 = 150
    ∧ (telethonCb ⟨50, [((1, 1), ⟨50, 200⟩)]⟩ 1 1 100 (some 200) 0).downloaded
        = 100 := by
  constructor <;> decide

/-- Claim C4 counterexample: a single progress callback with cumulative
received 5, no transport-reported total and assumed size 0 leaves the
in-memory mapping — the exact mapping the next durable write stores —
with an entry done = 5, total = 0, violating bytesDone ≤ bytesTotal. -/
theorem c4_counterexample :
    ¬ stateInv ((stepEv ⟨0, []⟩ (Ev.cb 1 1 5 none 0)).state) := by
  intro h
  have h2 := h ((1, 1), ⟨5, 0⟩) (by simp [stepEv, telethonCb, setEntry, pyOrTotal])
  have h3 : (5 : Int) ≤ 0 := h2.2
  omega

/-- Claim C4 amended: starting from a checkpoint state whose entries all
satisfy 0 ≤ bytesDone ≤ bytesTotal, and given that every progress
callback reports 0 ≤ received ≤ effective total (the transport total when
nonzero, else the assumed size) and every handoff credit a nonnegative
size, the state at every durable write satisfies the invariant. -/
theorem c4_invariant_at_durable_writes (s : Ctrl) (evs : List Ev)
    (hs : stateInv s.state) (h : ∀ e ∈ evs, evOk e) :
    stateInv (runEvs s evs).state := by
  induction evs generalizing s with
  | nil => exact hs
  | cons e rest ih =>
    have h1 : stateInv (stepEv s e).state :=
      stepEv_preserves_inv hs (h e (List.mem_cons_self e rest))
    exact ih (stepEv s e) h1 (fun e' he' => h e' (List.mem_cons_of_mem e he'))

/-- Claim C4 witness: from the empty checkpoint, a wellformed callback
run leaves an invariant-satisfying state. -/
theorem c4_witness :
    stateInv (runEvs ⟨0, []⟩ [Ev.cb 1 1 5 (some 10) 0]).state :=
  c4_invariant_at_durable_writes ⟨0, []⟩ [Ev.cb 1 1 5 (some 10) 0]
    (by intro p hp; cases hp)
    (by
      intro e he
      rw [List.mem_singleton] at he
      subst he
      exact ⟨by decide, by decide⟩)

/-- Claim C5 counterexample: an item resumed after a restart has loaded
checkpoint done = 1000; the first callback of the new transfer attempt
reports cumulative received = 100, and the update overwrites the stored
bytesDone with 100, strictly decreasing it. -/
theorem c5_counterexample :
    getDone ((telethonCb ⟨0, [((1, 1), ⟨1000, 2000⟩)]⟩
        1 1 100 (some 2000) 2000).state) 1 1
      < getDone [((1, 1), ⟨1000, 2000⟩)] 1 1 := by
  decide

/-- Claim C5 amended: a checkpoint update never decreases an item's stored
bytesDone provided the callback's cumulative received count is at least
the previously stored value; in general the update overwrites bytesDone
with the current attempt's cumulative count, so the first callbacks after
a restart (received below the loaded checkpoint) do decrease it. -/
theorem c5_monotone_when_received_catches_up (s : Ctrl) (c g : Nat)
    (r : Int) (t : Option Int) (a : Int)
    (h : getDone s.state c g ≤ r) :
    getDone s.state c g ≤ getDone ((telethonCb s c g r t a).state) c g := by
  have hset : getDone ((telethonCb s c g r t a).state) c g = r := by
    simp only [telethonCb, getDone, getEntry_setEntry]
  rw [hset]
  exact h

/-- Claim C5 witness: a callback whose cumulative count has caught up
with the stored value does not decrease it. -/
theorem c5_witness :
    getDone [((1, 1), ⟨40, 200⟩)] 1 1
      ≤ getDone ((telethonCb ⟨0, [((1, 1), ⟨40, 200⟩)]⟩
          1 1 70 (some 200) 0).state) 1 1 :=
  c5_monotone_when_received_catches_up ⟨0, [((1, 1), ⟨40, 200⟩)]⟩
    1 1 70 (some 200) 0 (by decide)

/-- Claim C6 counterexample: a save of the checkpoint store is not a
write-temp-then-replace sequence — its operation list contains no rename
at all, only the single direct write to the store file. -/
theorem c6_counterexample :
    ¬ usesWriteTempThenReplace (save_state_ops "s") DOWNLOAD_STATE := by
  rintro ⟨tmp, hne, hw, hr⟩
  simp [save_state_ops] at hr

/-- Claim C6 amended: every checkpoint-store save is exactly one direct
write of the serialized mapping onto the store file itself; no temporary
file is written and nothing is renamed, so a crash mid-write can leave a
partially written store file (which load then treats as empty). -/
theorem c6_direct_write (contents : String) :
    save_state_ops contents = [FsOp.writeFile DOWNLOAD_STATE contents]
    ∧ ¬ usesWriteTempThenReplace (save_state_ops contents) DOWNLOAD_STATE := by
  refine ⟨rfl, ?_⟩
  rintro ⟨tmp, hne, hw, hr⟩
  simp [save_state_ops] at hr

/-- Claim C6 witness: the amended statement at a concrete serialized
mapping. -/
theorem c6_witness :
    save_state_ops "m" = [FsOp.writeFile DOWNLOAD_STATE "m"]
    ∧ ¬ usesWriteTempThenReplace (save_state_ops "m") DOWNLOAD_STATE :=
  c6_direct_write "m"

/-- Claim C7 counterexample: a measured throughput of exactly 0 bytes per
second with power ok does not produce the slow-network profile; Python's
falsy test on the float 0.0 routes it to the unknown-throughput row, so
the chunk size is 256000, not 128000. -/
theorem c7_counterexample :
    compute_profile (some 0) true = ⟨256000, 1, false⟩
    ∧ (compute_profile (some 0) true).chunk_size ≠ 128000 := by
  constructor <;> decide

/-- Claim C7 amended: for every measured throughput strictly between
0 and 0.5 Mbps (0 itself excluded: a zero measurement is treated as an
unknown throughput) with power ok, the profile is chunk 128000,
concurrency 1, fast mode off. -/
theorem c7_slow_profile (b : Rat) (h0 : 0 < b) (h : b < 500000) :
    compute_profile (some b) true = ⟨128000, 1, false⟩ := by
  have hm : b / 1000000 < 1 / 2 := by
    rw [div_lt_iff₀ (by norm_num : (0 : Rat) < 1000000)]
    linarith
  have hn10 : ¬ (b / 1000000 ≥ 10) := by
    intro hc; rw [ge_iff_le] at hc; linarith
  have hn2 : ¬ (b / 1000000 ≥ 2) := by
    intro hc; rw [ge_iff_le] at hc; linarith
  have hnh : ¬ (b / 1000000 ≥ 1 / 2) := by
    intro hc; rw [ge_iff_le] at hc; linarith
  simp only [compute_profile]
  rw [if_pos trivial, if_neg h0.ne', if_neg hn10, if_neg hn2, if_neg hnh]

/-- Claim C7 witness: the amended statement at 1 byte per second. -/
theorem c7_witness :
    compute_profile (some 1) true = ⟨128000, 1, false⟩ :=
  c7_slow_profile 1 (by norm_num) (by norm_num)

/-- Claim C8 counterexample: a partial output file of 100 bytes exists
for an item of declared size 300; the cancel flag is observed at the
second chunk boundary.  The run returns false as claimed, but the engine
then opens the output with truncation and extends it to the full declared
size, so the 100 partial bytes are replaced by a 300-byte file — the file
is not left in place at its partial size. -/
theorem c8_counterexample :
    simulated (some 100) 300 100 (some 1) true
      = some ⟨false, 100, some 300, true⟩
    ∧ (some 300 : Option Nat) ≠ some 100 := by
  constructor <;> decide

/-- Claim C8 amended: whenever a terminating run of the in-process engine
observes cancellation, it returns false; however, instead of leaving the
partial file untouched, it truncates and extends the output file to the
full declared size (assuming the final open succeeds). -/
theorem c8_cancel_returns_false_but_truncates
    (existing : Option Nat) (size chunk : Nat) (cancelStep : Option Nat)
    (r : SimResult)
    (h : simulated existing size chunk cancelStep true = some r)
    (hc : r.cancelled = true) :
    r.retval = false ∧ r.fileSize = some size := by
  cases existing with
  | some n =>
    simp only [simulated] at h
    by_cases hn : n ≥ size
    · rw [if_pos hn, Option.some.injEq] at h
      rw [← h] at hc
      cases hc
    · rw [if_neg hn] at h
      cases hl : simLoop size chunk cancelStep (size + 1) 0 0 with
      | none => rw [hl] at h; simp at h
      | some pr =>
        rw [hl] at h
        simp only [Option.map_some', Option.some.injEq] at h
        have hf : pr.2 = true := by rw [← h] at hc; exact hc
        rw [← h]
        simp [hf]
  | none =>
    simp only [simulated] at h
    cases hl : simLoop size chunk cancelStep (size + 1) 0 0 with
    | none => rw [hl] at h; simp at h
    | some pr =>
      rw [hl] at h
      simp only [Option.map_some', Option.some.injEq] at h
      have hf : pr.2 = true := by rw [← h] at hc; exact hc
      rw [← h]
      simp [hf]

/-- Claim C8 witness: a concrete cancelled run returns false and leaves a
full-size file. -/
theorem c8_witness :
    (⟨false, 60, some 400, true⟩ : SimResult).retval = false
    ∧ (⟨false, 60, some 400, true⟩ : SimResult).fileSize = some 400 :=
  c8_cancel_returns_false_but_truncates (some 10) 400 60 (some 1)
    ⟨false, 60, some 400, true⟩ (by decide) rfl

/-- Claim C9: when the checkpoint file is missing, unreadable, or holds
content that json.loads rejects, load returns the empty mapping; the
totality of load_state over every read outcome is the formal counterpart
of never raising to the caller. -/
theorem c9_load_failure_empty :
    load_state ReadOutcome.missing = []
    ∧ load_state ReadOutcome.readError = []
    ∧ load_state (ReadOutcome.content none) = [] :=
  ⟨rfl, rfl, rfl⟩

/-- Claim C10: for every throughput input (possibly absent) and power
flag, the computed profile has chunk size between 64000 and 1000000,
concurrency in the set 1, 2, 4, and concurrency 1 whenever the power flag
is false. -/
theorem c10_profile_invariants (bps : Option Rat) (ok : Bool) :
    64000 ≤ (compute_profile bps ok).chunk_size
    ∧ (compute_profile bps ok).chunk_size ≤ 1000000
    ∧ ((compute_profile bps ok).concurrency = 1
        ∨ (compute_profile bps ok).concurrency = 2
        ∨ (compute_profile bps ok).concurrency = 4)
    ∧ (ok = false → (compute_profile bps ok).concurrency = 1) := by
  refine ⟨?_, ?_, ?_, fun hok => by rw [hok]; exact compute_profile_battery bps⟩ <;>
    rcases compute_profile_cases bps ok with h | h | h | h | h | h | h <;>
      rw [h] <;> norm_num

/-- Claim C10 witness: with the power flag false the concurrency is
forced to 1, here at a zero measurement. -/
theorem c10_witness : (compute_profile (some 0) false).concurrency = 1 :=
  (c10_profile_invariants (some 0) false).2.2.2 rfl

end Tgm
